import Mathlib

/-!
Shallow embedding of the location-aware insights pipeline and the staged
analysis runner of the medi-supply dashboard (src/components/HospitalNetwork.tsx,
Dashboard component), together with the risk badge classifier.

Asynchronous JS control flow is embedded as pure state-passing: each external
call becomes an Except-valued input, and the timed analysis run becomes an
explicit list of timed events executed in time order.
-/

namespace MediSupply

/-- Risk level enumeration: the three values LOW, MEDIUM, HIGH used throughout
the dashboard source. -/
inductive RiskLevel where
  | LOW
  | MEDIUM
  | HIGH
deriving DecidableEq, Repr

/-- JS truthiness of an optional string field (undefined and the empty string
are falsy, every other string is truthy), as used by the fallback chains of
getAddressFromCoords. -/
def strTruthy : Option String → Bool
  | none => false
  | some s => s ≠ ""

/-- JS shortcut-or on an optional string with a string default: the left
operand is returned when truthy, otherwise the right one. -/
def jsOrStr (a : Option String) (b : String) : String :=
  match a with
  | none => b
  | some s => if s = "" then b else s

/-- Shape of the reverse-geocoding response body: the four optional fields read
by getAddressFromCoords. -/
structure ReverseGeocodeResponse where
  city : Option String
  locality : Option String
  principalSubdivision : Option String
  countryName : Option String
deriving DecidableEq, Repr

/-- Failure of the reverse-geocoding call: a transport error of the fetch or a
parse error of the response body; both are caught inside getAddressFromCoords. -/
inductive GeoFailure where
  | transport
  | parse
deriving DecidableEq, Repr

/-- Locality label produced by getAddressFromCoords; the source names the
second field state (the spec calls it region). -/
structure Locality where
  city : String
  state : String
deriving DecidableEq, Repr

/-- Embedding of getAddressFromCoords: on a parsed response, city and state are
chosen by the JS shortcut-or fallback chains of the source; any caught error
yields the Unknown locality with empty state. -/
def getAddressFromCoords (r : Except GeoFailure ReverseGeocodeResponse) : Locality :=
  match r with
  | .error _ => ⟨"Unknown", ""⟩
  | .ok d =>
      ⟨jsOrStr d.city (jsOrStr d.locality (jsOrStr d.principalSubdivision "Unknown Location")),
       jsOrStr d.principalSubdivision (jsOrStr d.countryName "")⟩

/-- First candidate that is a non-empty string, else the default; written after
the wording of the spec field-selection policy, to be compared with
getAddressFromCoords. -/
def firstNonEmpty : List (Option String) → String → String
  | [], d => d
  | a :: rest, d => if strTruthy a then a.getD d else firstNonEmpty rest d

/-- Geographic position: a latitude and longitude pair. -/
structure Position where
  latitude : ℚ
  longitude : ℚ
deriving DecidableEq, Repr

/-- Parsed body of a successful insights backend response; the component stores
it opaquely via setLocalInsights. -/
structure InsightsData where
  raw : String
deriving DecidableEq, Repr

/-- Failure of the insights fetch: transport error, non-success HTTP status
(the source throws on a non-ok response), or a body that cannot be parsed. -/
inductive FetchFailure where
  | transport
  | http
  | decode
deriving DecidableEq, Repr

/-- Dashboard state owned by the location pipeline: the stored insights, the
location status line and the location error line (initial values null,
Waiting for location, null). -/
structure DashboardState where
  localInsights : Option InsightsData
  locationStatus : String
  locationError : Option String
deriving DecidableEq, Repr

/-- Initial dashboard state of the component (useState defaults). -/
def initDashboardState : DashboardState :=
  ⟨none, "Waiting for location...", none⟩

/-- Result of one resolution attempt: the final dashboard state, how many times
the insights endpoint was actually fetched, and the position with which the
insights-fetch stage (fetchLocalInsights) was entered, if it was reached. -/
structure PipelineOutcome where
  state : DashboardState
  insightsCalls : Nat
  insightsPosition : Option Position
deriving DecidableEq, Repr

/-- Embedding of fetchLocalInsights: set the analyzing status, resolve the
locality, and only when the city is truthy and differs from Unknown issue the
insights fetch; a fetch failure is caught, setting the Data Unavailable status
and the insights error message while leaving the stored insights untouched. -/
def fetchLocalInsights (pos : Position) (geo : Except GeoFailure ReverseGeocodeResponse)
    (ins : Except FetchFailure InsightsData) (s : DashboardState) : PipelineOutcome :=
  let s1 : DashboardState := { s with locationStatus := "Analyzing local environment..." }
  let loc := getAddressFromCoords geo
  if loc.city ≠ "" ∧ loc.city ≠ "Unknown" then
    match ins with
    | .ok d =>
        ⟨{ s1 with localInsights := some d, locationStatus := "Live Data Active" }, 1, some pos⟩
    | .error _ =>
        ⟨{ s1 with locationStatus := "Data Unavailable",
                   locationError := some "Failed to fetch local insights." }, 1, some pos⟩
  else
    ⟨{ s1 with locationStatus := "Could not determine city name." }, 0, some pos⟩

/-- Shape of the IP geolocation response: two optional numeric fields. -/
structure IpResponse where
  latitude : Option ℚ
  longitude : Option ℚ
deriving DecidableEq, Repr

/-- Failure of the IP geolocation call (transport or parse). -/
inductive IpFailure where
  | transport
  | parse
deriving DecidableEq, Repr

/-- JS truthiness of an optional numeric field: undefined and zero are falsy. -/
def numTruthy : Option ℚ → Bool
  | none => false
  | some q => q ≠ 0

/-- Error message stored by the catch branch of fetchIpLocation. -/
def ipFailMessage : String := "Automatic location failed. Please click \x27Retry Location\x27."

/-- Embedding of fetchIpLocation: set the estimating status, and when the
response carries truthy latitude and longitude hand them to
fetchLocalInsights; otherwise (thrown error, or invalid data rethrown into the
same catch) store the retry error message and the Location Unknown status. -/
def fetchIpLocation (ip : Except IpFailure IpResponse)
    (geo : Except GeoFailure ReverseGeocodeResponse)
    (ins : Except FetchFailure InsightsData) (s : DashboardState) : PipelineOutcome :=
  let s1 : DashboardState := { s with locationStatus := "Estimating location via IP..." }
  match ip with
  | .ok d =>
      if numTruthy d.latitude ∧ numTruthy d.longitude then
        fetchLocalInsights ⟨d.latitude.getD 0, d.longitude.getD 0⟩ geo ins s1
      else
        ⟨{ s1 with locationError := some ipFailMessage,
                   locationStatus := "Location Unknown" }, 0, none⟩
  | .error _ =>
      ⟨{ s1 with locationError := some ipFailMessage,
                 locationStatus := "Location Unknown" }, 0, none⟩

/-- Ways device positioning can fail: no geolocation capability, permission
denied, the 5 second timeout, or a position signal error; every one of them
makes locateUser fall back to fetchIpLocation. -/
inductive DeviceFailure where
  | unavailable
  | denied
  | timeout
  | signal
deriving DecidableEq, Repr

/-- Embedding of locateUser: clear the location error, set the detecting
status, then use the device position when available and otherwise fall back to
IP-based estimation. -/
def locateUser (device : Except DeviceFailure Position) (ip : Except IpFailure IpResponse)
    (geo : Except GeoFailure ReverseGeocodeResponse)
    (ins : Except FetchFailure InsightsData) (s : DashboardState) : PipelineOutcome :=
  let s1 : DashboardState := { s with locationError := none,
                                      locationStatus := "Detecting location..." }
  match device with
  | .ok pos => fetchLocalInsights pos geo ins s1
  | .error _ => fetchIpLocation ip geo ins s1

/-- Modelled from the spec: the analysis result produced by the mocked
AIService backend (src/services/mockBackend and src/types are not in the
source tree; the fields follow the spec data model for AnalysisResult). -/
structure AnalysisResult where
  predictedDemand : ℚ
  riskLevel : RiskLevel
  recommendation : String
  reasoning : String
  affectedRegion : String
  targetedMedicine : String
deriving DecidableEq, Repr

/-- Modelled from the spec: one per-region risk entry of the regional risk
list (RegionStats in the source imports, not in the source tree). -/
structure RegionStat where
  id : String
  name : String
  risk : RiskLevel
  activeCases : Nat
deriving DecidableEq, Repr

/-- One terminal log entry: addLog records the current time and the message
(the source concatenates the two into one display string). -/
structure LogEntry where
  time : Nat
  message : String
deriving DecidableEq, Repr

/-- Atomic state updates performed by a runAnalysis invocation. -/
inductive RunEvent where
  | start
  | logLine (msg : String)
  | complete (result : AnalysisResult) (regions : List RegionStat)
deriving DecidableEq, Repr

/-- An event with its firing time in ms and a scheduling sequence number used
only to break ties between events firing at the same instant. -/
structure TimedEvent where
  time : Nat
  seq : Nat
  event : RunEvent
deriving DecidableEq, Repr

/-- Timed events of one runAnalysis invocation started at time t0 whose two
awaited data calls take d1 and d2 ms (the second call starts only after the
first resolves, so the run completes at t0 + d1 + d2): the synchronous start,
the three setTimeout log lines scheduled at +500, +900 and +1300 ms, and the
completion, which stores the result and the regions and appends the terminal
log line. -/
def runAnalysisEvents (t0 seqBase d1 d2 : Nat) (res : AnalysisResult)
    (regs : List RegionStat) : List TimedEvent :=
  [⟨t0, seqBase, .start⟩,
   ⟨t0 + 500, seqBase + 1, .logLine "Fetching real-time inventory data..."⟩,
   ⟨t0 + 900, seqBase + 2, .logLine "Aggregating community symptom reports..."⟩,
   ⟨t0 + 1300, seqBase + 3, .logLine "Running LLaMA-3 reasoning model..."⟩,
   ⟨t0 + d1 + d2, seqBase + 4, .complete res regs⟩]

/-- Dashboard state owned by the analysis runner: the log, the stored analysis
result, the regional risk list and the analyzing flag. -/
structure RunnerState where
  logs : List LogEntry
  analysis : Option AnalysisResult
  regions : List RegionStat
  isAnalyzing : Bool
deriving DecidableEq, Repr

/-- Initial runner state of the component (useState defaults). -/
def initRunnerState : RunnerState := ⟨[], none, [], false⟩

/-- Apply one event to the runner state: start raises the analyzing flag,
clears the log and appends the first line; a scheduled line appends; the
completion stores the result and the regions, lowers the analyzing flag and
appends the terminal line. -/
def applyEvent (s : RunnerState) (e : TimedEvent) : RunnerState :=
  match e.event with
  | .start => ⟨[⟨e.time, "Initializing AI Agent..."⟩], s.analysis, s.regions, true⟩
  | .logLine m => { s with logs := s.logs ++ [⟨e.time, m⟩] }
  | .complete r g =>
      ⟨s.logs ++ [⟨e.time, "Analysis complete. Insights generated."⟩], some r, g, false⟩

/-- Insert an event into a list sorted by firing time (ties broken by the
scheduling sequence number). -/
def insertEvent (e : TimedEvent) : List TimedEvent → List TimedEvent
  | [] => [e]
  | x :: xs =>
      if e.time < x.time ∨ (e.time = x.time ∧ e.seq < x.seq) then e :: x :: xs
      else x :: insertEvent e xs

/-- Sort events by firing time (insertion sort). -/
def sortEvents : List TimedEvent → List TimedEvent
  | [] => []
  | x :: xs => insertEvent x (sortEvents xs)

/-- Execute a collection of timed events in firing order from a given state:
the deterministic-timers semantics of one or more overlapping runs. -/
def executeEvents (events : List TimedEvent) (s : RunnerState) : RunnerState :=
  (sortEvents events).foldl applyEvent s

/-- Text of a risk level as rendered by the dashboard. -/
def riskLevelText : RiskLevel → String
  | .LOW => "LOW"
  | .MEDIUM => "MEDIUM"
  | .HIGH => "HIGH"

/-- Badge label rendered by RiskBadge: the level text followed by RISK. -/
def riskBadgeLabel (l : RiskLevel) : String := riskLevelText l ++ " RISK"

/-- Colors lookup of RiskBadge in the source, keyed by the risk level. -/
def riskBadgeColor : RiskLevel → String
  | .LOW => "bg-green-100 text-green-800 border-green-200"
  | .MEDIUM => "bg-yellow-100 text-yellow-800 border-yellow-200"
  | .HIGH => "bg-red-100 text-red-800 border-red-200 animate-pulse"

/-- A presentation-neutral risk category: a label and a severity rank. -/
structure RiskCategory where
  label : String
  severityRank : Nat
deriving DecidableEq, Repr

/-- Modelled from the spec: RiskClassifier.classify. The source realizes the
classification as the RiskBadge presentation map; the severityRank numbers the
three levels in the spec enum order LOW < MEDIUM < HIGH, and the label is the
badge label of the source. -/
def classify (l : RiskLevel) : RiskCategory :=
  ⟨riskBadgeLabel l, match l with | .LOW => 0 | .MEDIUM => 1 | .HIGH => 2⟩

/-- Fixture responses and states used by the witnesses below. -/
def bengaluruResp : ReverseGeocodeResponse :=
  ⟨some "Bengaluru", none, some "Karnataka", some "India"⟩

/-- Fixture forecast result used by the witnesses below. -/
def sampleResult : AnalysisResult :=
  ⟨480, .HIGH, "Increase Paracetamol stock", "Rising dengue reports", "Mumbai Zone",
   "Paracetamol"⟩

/-- Fixture regional risk list used by the witnesses below. -/
def sampleRegions : List RegionStat :=
  [⟨"r1", "North Delhi", .HIGH, 1240⟩, ⟨"r2", "Mumbai Metro", .MEDIUM, 830⟩]

lemma firstNonEmpty_cons (a : Option String) (rest : List (Option String)) (d : String) :
    firstNonEmpty (a :: rest) d = jsOrStr a (firstNonEmpty rest d) := by
  cases a with
  | none => simp [firstNonEmpty, strTruthy, jsOrStr]
  | some s =>
      by_cases h : s = "" <;> simp [firstNonEmpty, strTruthy, jsOrStr, h]

/-- C2: resolveLocality (getAddressFromCoords) selects the city as the first
non-empty candidate in the order city, locality, principalSubdivision, then
the literal Unknown Location; the region (source field state) as the first
non-empty of principalSubdivision, countryName, then the empty string; and a
thrown transport or parse error returns the Unknown locality with empty
region instead of propagating. -/
theorem getAddressFromCoords_selection :
    (∀ d : ReverseGeocodeResponse,
      getAddressFromCoords (.ok d) =
        ⟨firstNonEmpty [d.city, d.locality, d.principalSubdivision] "Unknown Location",
         firstNonEmpty [d.principalSubdivision, d.countryName] ""⟩) ∧
    (∀ e : GeoFailure, getAddressFromCoords (.error e) = ⟨"Unknown", ""⟩) := by
  constructor
  · intro d
    simp only [firstNonEmpty_cons]
    rfl
  · intro e
    rfl

/-- C4 counterexample: a parsed reverse-geocoding response with no usable name
produces the city Unknown Location, not Unknown, so the thrown-error case and
the no-usable-name case do not produce the same city value. -/
theorem getAddressFromCoords_noname_counterexample :
    (getAddressFromCoords (.ok ⟨none, none, none, none⟩)).city = "Unknown Location" ∧
    (getAddressFromCoords (.ok ⟨none, none, none, none⟩)).city ≠ "Unknown" ∧
    (getAddressFromCoords (.error .transport)).city = "Unknown" := by
  refine ⟨rfl, ?_, rfl⟩
  decide

/-- C4 amended: a thrown locality-resolution error yields city Unknown, while
a parsed response in which no candidate name is usable yields the distinct
placeholder Unknown Location. -/
theorem getAddressFromCoords_unknown_cases :
    (∀ e : GeoFailure, (getAddressFromCoords (.error e)).city = "Unknown") ∧
    (∀ d : ReverseGeocodeResponse, strTruthy d.city = false → strTruthy d.locality = false →
      strTruthy d.principalSubdivision = false →
      (getAddressFromCoords (.ok d)).city = "Unknown Location") := by
  constructor
  · intro e; rfl
  · intro d h1 h2 h3
    obtain ⟨c, l, p, n⟩ := d
    cases c <;> cases l <;> cases p <;>
      simp_all [getAddressFromCoords, strTruthy, jsOrStr]

/-- C4 witness: the amended statement evaluated at a thrown transport error and
at a response carrying only a country name. -/
theorem getAddressFromCoords_unknown_cases_witness :
    (getAddressFromCoords (.error .transport)).city = "Unknown" ∧
    (getAddressFromCoords (.ok ⟨none, none, none, some "India"⟩)).city = "Unknown Location" :=
  ⟨getAddressFromCoords_unknown_cases.1 .transport,
   getAddressFromCoords_unknown_cases.2 ⟨none, none, none, some "India"⟩ rfl rfl rfl⟩

/-- C3 counterexample: when the resolved city is Unknown the pipeline skips
the insights fetch but stores the status Could not determine city name.,
which is not the status string Could not determine locality. -/
theorem fetchLocalInsights_unknown_city_counterexample :
    (fetchLocalInsights ⟨1, 2⟩ (.error .transport) (.ok ⟨"fixture"⟩)
        initDashboardState).state.locationStatus = "Could not determine city name." ∧
    (fetchLocalInsights ⟨1, 2⟩ (.error .transport) (.ok ⟨"fixture"⟩)
        initDashboardState).state.locationStatus ≠ "Could not determine locality" ∧
    (fetchLocalInsights ⟨1, 2⟩ (.error .transport) (.ok ⟨"fixture"⟩)
        initDashboardState).insightsCalls = 0 := by
  refine ⟨rfl, ?_, rfl⟩
  decide

/-- C3 amended: whenever locality resolution yields city Unknown, the insights
endpoint is fetched zero times, the stored insights are untouched, and the
attempt stops in the non-error status Could not determine city name. -/
theorem fetchLocalInsights_unknown_city (pos : Position)
    (geo : Except GeoFailure ReverseGeocodeResponse)
    (ins : Except FetchFailure InsightsData) (s : DashboardState)
    (h : (getAddressFromCoords geo).city = "Unknown") :
    (fetchLocalInsights pos geo ins s).insightsCalls = 0 ∧
    (fetchLocalInsights pos geo ins s).state.locationStatus =
      "Could not determine city name." ∧
    (fetchLocalInsights pos geo ins s).state.localInsights = s.localInsights ∧
    (fetchLocalInsights pos geo ins s).state.locationError = s.locationError := by
  have hc : ¬((getAddressFromCoords geo).city ≠ "" ∧
      (getAddressFromCoords geo).city ≠ "Unknown") := by
    rw [h]; decide
  simp [fetchLocalInsights, hc]

/-- C3 witness: the amended statement evaluated at a failed reverse-geocoding
call, which resolves to the Unknown city. -/
theorem fetchLocalInsights_unknown_city_witness :
    (getAddressFromCoords (.error GeoFailure.parse)).city = "Unknown" ∧
    ((fetchLocalInsights ⟨3, 4⟩ (.error GeoFailure.parse) (.ok ⟨"fixture"⟩)
        initDashboardState).insightsCalls = 0 ∧
     (fetchLocalInsights ⟨3, 4⟩ (.error GeoFailure.parse) (.ok ⟨"fixture"⟩)
        initDashboardState).state.locationStatus = "Could not determine city name." ∧
     (fetchLocalInsights ⟨3, 4⟩ (.error GeoFailure.parse) (.ok ⟨"fixture"⟩)
        initDashboardState).state.localInsights = initDashboardState.localInsights ∧
     (fetchLocalInsights ⟨3, 4⟩ (.error GeoFailure.parse) (.ok ⟨"fixture"⟩)
        initDashboardState).state.locationError = initDashboardState.locationError) :=
  ⟨rfl, fetchLocalInsights_unknown_city ⟨3, 4⟩ (.error GeoFailure.parse) (.ok ⟨"fixture"⟩)
      initDashboardState rfl⟩

/-- C9: the classifier derived from RiskBadge is total over the three risk
levels, its severity rank lies in 0, 1, 2, the rank is strictly monotone in
severity, and the label is exactly the badge label of the source. -/
theorem classify_severity_order :
    ((classify .HIGH).severityRank > (classify .MEDIUM).severityRank ∧
     (classify .MEDIUM).severityRank > (classify .LOW).severityRank) ∧
    (∀ l : RiskLevel, (classify l).severityRank = 0 ∨ (classify l).severityRank = 1 ∨
      (classify l).severityRank = 2) ∧
    (∀ l : RiskLevel, (classify l).label = riskBadgeLabel l) := by
  refine ⟨⟨by decide, by decide⟩, ?_, ?_⟩
  · intro l; cases l <;> simp [classify]
  · intro l; rfl

lemma fetchLocalInsights_position (pos : Position)
    (geo : Except GeoFailure ReverseGeocodeResponse)
    (ins : Except FetchFailure InsightsData) (s : DashboardState) :
    (fetchLocalInsights pos geo ins s).insightsPosition = some pos := by
  by_cases hc : (getAddressFromCoords geo).city ≠ "" ∧ (getAddressFromCoords geo).city ≠ "Unknown"
  · cases ins <;> simp [fetchLocalInsights, hc]
  · simp [fetchLocalInsights, hc]

lemma fetchLocalInsights_error_cases (pos : Position)
    (geo : Except GeoFailure ReverseGeocodeResponse)
    (ins : Except FetchFailure InsightsData) (s : DashboardState)
    (h : s.locationError = none) :
    (fetchLocalInsights pos geo ins s).state.locationError = none ∨
    (fetchLocalInsights pos geo ins s).state.locationError =
      some "Failed to fetch local insights." := by
  by_cases hc : (getAddressFromCoords geo).city ≠ "" ∧ (getAddressFromCoords geo).city ≠ "Unknown"
  · cases ins with
    | ok d => left; simp [fetchLocalInsights, hc, h]
    | error f => right; simp [fetchLocalInsights, hc]
  · left; simp [fetchLocalInsights, hc, h]

/-- C5: when device positioning fails for any reason and the IP response
carries truthy coordinates, the fallback is automatic: the attempt is exactly
an insights-fetch stage entered with the network-derived position, that stage
is reached with that position, and the only error that can be surfaced is the
insights-fetch error, never one caused by the device failure alone. -/
theorem locateUser_device_fallback (e : DeviceFailure) (d : IpResponse)
    (geo : Except GeoFailure ReverseGeocodeResponse)
    (ins : Except FetchFailure InsightsData) (s : DashboardState)
    (h1 : numTruthy d.latitude = true) (h2 : numTruthy d.longitude = true) :
    locateUser (.error e) (.ok d) geo ins s =
      fetchLocalInsights ⟨d.latitude.getD 0, d.longitude.getD 0⟩ geo ins
        { s with locationError := none,
                 locationStatus := "Estimating location via IP..." } ∧
    (locateUser (.error e) (.ok d) geo ins s).insightsPosition =
      some ⟨d.latitude.getD 0, d.longitude.getD 0⟩ ∧
    ((locateUser (.error e) (.ok d) geo ins s).state.locationError = none ∨
     (locateUser (.error e) (.ok d) geo ins s).state.locationError =
       some "Failed to fetch local insights.") := by
  have hstep : locateUser (.error e) (.ok d) geo ins s =
      fetchLocalInsights ⟨d.latitude.getD 0, d.longitude.getD 0⟩ geo ins
        { s with locationError := none,
                 locationStatus := "Estimating location via IP..." } := by
    simp [locateUser, fetchIpLocation, h1, h2]
  refine ⟨hstep, ?_, ?_⟩
  · rw [hstep]; exact fetchLocalInsights_position ..
  · rw [hstep]
    exact fetchLocalInsights_error_cases _ geo ins _ rfl

/-- C5 witness: a denied device position with a valid IP response and a
successful insights fetch. -/
theorem locateUser_device_fallback_witness :
    numTruthy (some (12 : ℚ)) = true ∧
    (locateUser (.error .denied) (.ok ⟨some 12, some 77⟩) (.ok bengaluruResp)
        (.ok ⟨"fixture"⟩) initDashboardState =
      fetchLocalInsights ⟨(some (12 : ℚ)).getD 0, (some (77 : ℚ)).getD 0⟩ (.ok bengaluruResp)
        (.ok ⟨"fixture"⟩)
        { initDashboardState with locationError := none,
                                  locationStatus := "Estimating location via IP..." } ∧
     (locateUser (.error .denied) (.ok ⟨some 12, some 77⟩) (.ok bengaluruResp)
        (.ok ⟨"fixture"⟩) initDashboardState).insightsPosition =
       some ⟨(some (12 : ℚ)).getD 0, (some (77 : ℚ)).getD 0⟩ ∧
     ((locateUser (.error .denied) (.ok ⟨some 12, some 77⟩) (.ok bengaluruResp)
        (.ok ⟨"fixture"⟩) initDashboardState).state.locationError = none ∨
      (locateUser (.error .denied) (.ok ⟨some 12, some 77⟩) (.ok bengaluruResp)
        (.ok ⟨"fixture"⟩) initDashboardState).state.locationError =
        some "Failed to fetch local insights.")) :=
  ⟨by decide,
   locateUser_device_fallback .denied ⟨some 12, some 77⟩ (.ok bengaluruResp)
     (.ok ⟨"fixture"⟩) initDashboardState (by decide) (by decide)⟩

/-- C6 counterexample: when both device and network positioning fail, the
stored error message is Automatic location failed. Please click (quote) Retry
Location (quote)., which differs from the message Automatic location failed.
Please retry. stated by the claim. -/
theorem locateUser_network_failure_counterexample :
    (locateUser (.error .denied) (.error IpFailure.transport) (.ok bengaluruResp)
        (.ok ⟨"fixture"⟩) initDashboardState).state.locationError = some ipFailMessage ∧
    ipFailMessage ≠ "Automatic location failed. Please retry." := by
  refine ⟨rfl, ?_⟩
  decide

/-- C6 amended: whenever device positioning fails and the IP lookup throws or
returns no usable coordinates, the attempt ends with exactly
locationError Automatic location failed. Please click (quote) Retry Location
(quote)., status Location Unknown, no insights fetch; and a later resolution
attempt clears the stored error before reacting to its own inputs, so the
error persists only until locateUser is invoked again. -/
theorem locateUser_network_failure (e : DeviceFailure)
    (ip : Except IpFailure IpResponse) (geo : Except GeoFailure ReverseGeocodeResponse)
    (ins : Except FetchFailure InsightsData) (s : DashboardState)
    (h : ∀ d, ip = .ok d → ¬(numTruthy d.latitude = true ∧ numTruthy d.longitude = true)) :
    (locateUser (.error e) ip geo ins s).state.locationError = some ipFailMessage ∧
    (locateUser (.error e) ip geo ins s).state.locationStatus = "Location Unknown" ∧
    (locateUser (.error e) ip geo ins s).insightsCalls = 0 ∧
    (locateUser (.error e) ip geo ins s).insightsPosition = none ∧
    ipFailMessage = "Automatic location failed. Please click \x27Retry Location\x27." ∧
    (∀ dev2 ip2 geo2 ins2,
      locateUser dev2 ip2 geo2 ins2 (locateUser (.error e) ip geo ins s).state =
        locateUser dev2 ip2 geo2 ins2
          { (locateUser (.error e) ip geo ins s).state with locationError := none }) := by
  have hclear : ∀ (dev2 : Except DeviceFailure Position) ip2 geo2 ins2 (t : DashboardState),
      locateUser dev2 ip2 geo2 ins2 t =
        locateUser dev2 ip2 geo2 ins2 { t with locationError := none } := by
    intro dev2 ip2 geo2 ins2 t
    rfl
  cases ip with
  | error f =>
      exact ⟨rfl, rfl, rfl, rfl, rfl, fun dev2 ip2 geo2 ins2 => hclear dev2 ip2 geo2 ins2 _⟩
  | ok d =>
      have hd := h d rfl
      refine ⟨?_, ?_, ?_, ?_, rfl, fun dev2 ip2 geo2 ins2 => hclear dev2 ip2 geo2 ins2 _⟩ <;>
        simp [locateUser, fetchIpLocation, hd]

/-- C6 witness: the amended statement evaluated at a timed-out device position
and an IP lookup whose transport fails. -/
theorem locateUser_network_failure_witness :
    (locateUser (.error DeviceFailure.timeout) (.error IpFailure.parse) (.ok bengaluruResp)
        (.ok ⟨"fixture"⟩) initDashboardState).state.locationError = some ipFailMessage ∧
    (locateUser (.error DeviceFailure.timeout) (.error IpFailure.parse) (.ok bengaluruResp)
        (.ok ⟨"fixture"⟩) initDashboardState).state.locationStatus = "Location Unknown" ∧
    (locateUser (.error DeviceFailure.timeout) (.error IpFailure.parse) (.ok bengaluruResp)
        (.ok ⟨"fixture"⟩) initDashboardState).insightsCalls = 0 := by
  have h := locateUser_network_failure DeviceFailure.timeout (.error IpFailure.parse)
    (.ok bengaluruResp) (.ok ⟨"fixture"⟩) initDashboardState (fun d hd => nomatch hd)
  exact ⟨h.1, h.2.1, h.2.2.1⟩

/-- C7: with a resolvable city, a failed insights fetch (transport error,
non-success response, or undecodable body) leaves the previously stored
insights value untouched and stores the error Failed to fetch local insights.
with the Data Unavailable status. -/
theorem fetchLocalInsights_failure_retains (pos : Position)
    (geo : Except GeoFailure ReverseGeocodeResponse) (f : FetchFailure)
    (s : DashboardState)
    (h1 : (getAddressFromCoords geo).city ≠ "")
    (h2 : (getAddressFromCoords geo).city ≠ "Unknown") :
    (fetchLocalInsights pos geo (.error f) s).state.localInsights = s.localInsights ∧
    (fetchLocalInsights pos geo (.error f) s).state.locationError =
      some "Failed to fetch local insights." ∧
    (fetchLocalInsights pos geo (.error f) s).state.locationStatus = "Data Unavailable" := by
  simp [fetchLocalInsights, h1, h2]

/-- C7 witness: a previously stored insights value survives a failed refresh. -/
theorem fetchLocalInsights_failure_retains_witness :
    (getAddressFromCoords (.ok bengaluruResp)).city ≠ "" ∧
    (getAddressFromCoords (.ok bengaluruResp)).city ≠ "Unknown" ∧
    ((fetchLocalInsights ⟨12, 77⟩ (.ok bengaluruResp) (.error .http)
        ⟨some ⟨"previous"⟩, "Live Data Active", none⟩).state.localInsights =
      (⟨some ⟨"previous"⟩, "Live Data Active", none⟩ : DashboardState).localInsights ∧
     (fetchLocalInsights ⟨12, 77⟩ (.ok bengaluruResp) (.error .http)
        ⟨some ⟨"previous"⟩, "Live Data Active", none⟩).state.locationError =
       some "Failed to fetch local insights." ∧
     (fetchLocalInsights ⟨12, 77⟩ (.ok bengaluruResp) (.error .http)
        ⟨some ⟨"previous"⟩, "Live Data Active", none⟩).state.locationStatus =
       "Data Unavailable") :=
  ⟨by decide, by decide,
   fetchLocalInsights_failure_retains ⟨12, 77⟩ (.ok bengaluruResp) .http
     ⟨some ⟨"previous"⟩, "Live Data Active", none⟩ (by decide) (by decide)⟩

/-- C10: an IP geolocation response whose latitude or longitude is the falsy
number 0 takes the failure path of fetchIpLocation even though both
coordinates are present and numeric, because validity is decided by JS
truthiness of the two fields. -/
theorem fetchIpLocation_zero_rejected (d : IpResponse)
    (geo : Except GeoFailure ReverseGeocodeResponse)
    (ins : Except FetchFailure InsightsData) (s : DashboardState)
    (h1 : d.latitude.isSome = true) (h2 : d.longitude.isSome = true)
    (h3 : d.latitude = some 0 ∨ d.longitude = some 0) :
    (fetchIpLocation (.ok d) geo ins s).insightsCalls = 0 ∧
    (fetchIpLocation (.ok d) geo ins s).insightsPosition = none ∧
    (fetchIpLocation (.ok d) geo ins s).state.locationError = some ipFailMessage ∧
    (fetchIpLocation (.ok d) geo ins s).state.locationStatus = "Location Unknown" := by
  have hc : ¬(numTruthy d.latitude = true ∧ numTruthy d.longitude = true) := by
    rintro ⟨a, b⟩
    rcases h3 with hz | hz
    · rw [hz] at a; exact absurd a (by decide)
    · rw [hz] at b; exact absurd b (by decide)
  simp [fetchIpLocation, hc]

/-- C10 witness: a position exactly on the equator is rejected. -/
theorem fetchIpLocation_zero_rejected_witness :
    (some (0 : ℚ)).isSome = true ∧ (some (77 : ℚ)).isSome = true ∧
    ((fetchIpLocation (.ok ⟨some 0, some 77⟩) (.ok bengaluruResp) (.ok ⟨"fixture"⟩)
        initDashboardState).insightsCalls = 0 ∧
     (fetchIpLocation (.ok ⟨some 0, some 77⟩) (.ok bengaluruResp) (.ok ⟨"fixture"⟩)
        initDashboardState).insightsPosition = none ∧
     (fetchIpLocation (.ok ⟨some 0, some 77⟩) (.ok bengaluruResp) (.ok ⟨"fixture"⟩)
        initDashboardState).state.locationError = some ipFailMessage ∧
     (fetchIpLocation (.ok ⟨some 0, some 77⟩) (.ok bengaluruResp) (.ok ⟨"fixture"⟩)
        initDashboardState).state.locationStatus = "Location Unknown") :=
  ⟨rfl, rfl,
   fetchIpLocation_zero_rejected ⟨some 0, some 77⟩ (.ok bengaluruResp) (.ok ⟨"fixture"⟩)
     initDashboardState rfl rfl (Or.inl rfl)⟩

lemma sortEvents_single_run (d1 d2 : Nat) (res : AnalysisResult) (regs : List RegionStat)
    (h : 1300 < d1 + d2) :
    sortEvents (runAnalysisEvents 0 0 d1 d2 res regs) =
      runAnalysisEvents 0 0 d1 d2 res regs := by
  simp [runAnalysisEvents, sortEvents, insertEvent, h]

/-- C1: under deterministic timers, one runAnalysis invocation whose two
awaited data calls resolve after the last scheduled timer produces exactly the
five log lines in order, with the first appended at the run start, the middle
three at +500, +900 and +1300 ms, and the terminal line appended only at
d1 + d2, the instant both the forecast call and the regional-risk call have
resolved; the log is cleared at run start (the sequence is the same for every
prior state) and the run stores the forecast result and the regions. -/
theorem runAnalysis_log_sequence (d1 d2 : Nat) (res : AnalysisResult)
    (regs : List RegionStat) (s0 : RunnerState) (h : 1300 < d1 + d2) :
    (executeEvents (runAnalysisEvents 0 0 d1 d2 res regs) s0).logs.map LogEntry.message =
      ["Initializing AI Agent...", "Fetching real-time inventory data...",
       "Aggregating community symptom reports...", "Running LLaMA-3 reasoning model...",
       "Analysis complete. Insights generated."] ∧
    (executeEvents (runAnalysisEvents 0 0 d1 d2 res regs) s0).logs.map LogEntry.time =
      [0, 500, 900, 1300, d1 + d2] ∧
    (executeEvents (runAnalysisEvents 0 0 d1 d2 res regs) s0).analysis = some res ∧
    (executeEvents (runAnalysisEvents 0 0 d1 d2 res regs) s0).regions = regs := by
  have hs := sortEvents_single_run d1 d2 res regs h
  rw [executeEvents, hs]
  simp [runAnalysisEvents, applyEvent]

/-- C1 witness: the run evaluated with data-call durations 2000 and 1500 ms
from the initial runner state. -/
theorem runAnalysis_log_sequence_witness :
    1300 < 2000 + 1500 ∧
    ((executeEvents (runAnalysisEvents 0 0 2000 1500 sampleResult sampleRegions)
        initRunnerState).logs.map LogEntry.message =
      ["Initializing AI Agent...", "Fetching real-time inventory data...",
       "Aggregating community symptom reports...", "Running LLaMA-3 reasoning model...",
       "Analysis complete. Insights generated."] ∧
     (executeEvents (runAnalysisEvents 0 0 2000 1500 sampleResult sampleRegions)
        initRunnerState).logs.map LogEntry.time = [0, 500, 900, 1300, 2000 + 1500] ∧
     (executeEvents (runAnalysisEvents 0 0 2000 1500 sampleResult sampleRegions)
        initRunnerState).analysis = some sampleResult ∧
     (executeEvents (runAnalysisEvents 0 0 2000 1500 sampleResult sampleRegions)
        initRunnerState).regions = sampleRegions) :=
  ⟨by decide,
   runAnalysis_log_sequence 2000 1500 sampleResult sampleRegions initRunnerState (by decide)⟩

/-- Two overlapping runAnalysis invocations: the first starts at 0 with data
calls taking 3000 and 2000 ms (completion at 5000), the second starts at 100,
while the first is still in flight, with data calls taking 1000 and 1000 ms
(completion at 2100). -/
def staleRunEvents (res1 res2 : AnalysisResult) (regs1 regs2 : List RegionStat) :
    List TimedEvent :=
  runAnalysisEvents 0 0 3000 2000 res1 regs1 ++ runAnalysisEvents 100 10 1000 1000 res2 regs2

/-- Forecast result of the first, slower run in the stale-overwrite scenario. -/
def firstRunResult : AnalysisResult :=
  ⟨520, .MEDIUM, "Reroute supply to East", "Seasonal flu uptick", "Kolkata Zone", "Oseltamivir"⟩

/-- Forecast result of the second, faster run in the stale-overwrite scenario. -/
def secondRunResult : AnalysisResult :=
  ⟨310, .LOW, "Maintain current levels", "Stable demand", "Pune Zone", "Ibuprofen"⟩

/-- C8 counterexample: the second run alone would store its own result, but in
the overlapping execution the first run's completion at 5000 ms, which
resolves after the second run started, overwrites the second run's stored
AnalysisResult: the final analysis is the first run's distinct result. -/
theorem runAnalysis_stale_overwrite_counterexample :
    (executeEvents (runAnalysisEvents 100 10 1000 1000 secondRunResult [])
        initRunnerState).analysis = some secondRunResult ∧
    (executeEvents (staleRunEvents firstRunResult secondRunResult [] [])
        initRunnerState).analysis = some firstRunResult ∧
    firstRunResult ≠ secondRunResult := by
  refine ⟨rfl, rfl, ?_⟩
  decide

/-- C8 amended: in the overlapping scenario the second run's log does start
fresh at its start (every surviving entry is from time 100 on, beginning with
the fresh initial line), but the source has no supersession guard: the first
run's pending timers keep appending into the second run's log, and the first
run's completion, firing at 5000 ms after the second run completed at 2100 ms,
overwrites the second run's stored AnalysisResult and regions, so the final
result is the last completion by wall-clock time, not the newest invocation. -/
theorem runAnalysis_stale_overwrite (res1 res2 : AnalysisResult)
    (regs1 regs2 : List RegionStat) (s0 : RunnerState) :
    (executeEvents (staleRunEvents res1 res2 regs1 regs2) s0).analysis = some res1 ∧
    (executeEvents (staleRunEvents res1 res2 regs1 regs2) s0).regions = regs1 ∧
    (executeEvents (staleRunEvents res1 res2 regs1 regs2) s0).logs.map LogEntry.message =
      ["Initializing AI Agent...",
       "Fetching real-time inventory data...", "Fetching real-time inventory data...",
       "Aggregating community symptom reports...", "Aggregating community symptom reports...",
       "Running LLaMA-3 reasoning model...", "Running LLaMA-3 reasoning model...",
       "Analysis complete. Insights generated.", "Analysis complete. Insights generated."] ∧
    (executeEvents (staleRunEvents res1 res2 regs1 regs2) s0).logs.map LogEntry.time =
      [100, 500, 600, 900, 1000, 1300, 1400, 2100, 5000] := by
  refine ⟨rfl, rfl, rfl, rfl⟩

end MediSupply
